import Mathlib

/-!
Shallow embedding of the dual-viewport viewer controller of
ComfyUI-GeometryPack (src/web/js/viewer/viewers/DualViewer.js, with its
base class BaseViewer in src/unnamed/part_008).

The embedding models the controller state (two viewports, sync flags,
the reentrancy guard, notification logs) and the synchronous segments of
its operations: camera-modified event dispatch with the camera-sync
handler, the two synchronous phases of the asynchronous loadMesh
(the prefix up to the await, and the completion continuation),
message dispatch, applyField, setCameraSync, setLayout, getViewport and
destroy.  Numeric camera coordinates and scalar-field range endpoints
are modelled as Int.

Collaborator modules whose sources are not part of the repository
snapshot (FieldVisualization, MessageHandler) are modelled from the
specification and marked as such in their doc comments.
-/

namespace GeometryPack

/-- Viewport identifier of the dual viewer: viewport A or viewport B. -/
inductive VId where
  | A
  | B
deriving DecidableEq, Repr

/-- The other viewport: the target of a camera-sync copy whose source is `v`. -/
def VId.other : VId → VId
  | .A => .B
  | .B => .A

/-- Camera pose: position, focal point, up vector and parallel scale,
mirroring the four fields copied by the camera-sync handler
(DualViewer.js lines 190-193).  Coordinates are modelled as Int. -/
structure CameraPose where
  position : Int × Int × Int
  focalPoint : Int × Int × Int
  viewUp : Int × Int × Int
  parallelScale : Int
deriving DecidableEq, Repr

/-- Default camera pose of a freshly created vtk renderer camera. -/
def defaultPose : CameraPose :=
  { position := (0, 0, 1), focalPoint := (0, 0, 0), viewUp := (0, 1, 0), parallelScale := 1 }

/-- A loaded dataset (vtkPolyData) as far as the controller observes it:
an identifier and the named scalar fields with their numeric ranges. -/
structure PolyData where
  id : Nat
  fields : List (String × (Int × Int))
deriving DecidableEq, Repr

/-- Result of the loader (loadMesh of LoaderFactory) as consumed by
DualViewer.loadMesh: actors, optional polyData, format and flags. -/
structure LoadResult where
  actors : List Nat
  polyData : Option PolyData
  format : String
  hasTexture : Bool
  hasVertexColors : Bool
deriving DecidableEq, Repr

/-- Outcome of an asynchronous load: the resolved LoadResult, or the
rejection message of the fetch/parse error. -/
inductive LoadOutcome where
  | ok (r : LoadResult)
  | err (msg : String)
deriving DecidableEq, Repr

/-- The meshLoaded notification payload sent by DualViewer.loadMesh
(lines 333-339). -/
structure MeshLoadedNote where
  viewport : String
  filename : Option String
  format : String
  hasTexture : Bool
  hasVertexColors : Bool
deriving DecidableEq, Repr

/-- One viewport of the dual viewer (the object literal returned by
DualViewer._createViewport): its camera pose, its actor list, the
loaded polyData, the current filename, plus the actor list held by
its renderer and the liveness flags of its vtk resources. -/
structure Viewport where
  camera : CameraPose := defaultPose
  actors : List Nat := []
  polyData : Option PolyData := none
  filename : Option String := none
  rendererActors : List Nat := []
  interactorBound : Bool := true
  glDeleted : Bool := false
  renderWindowDeleted : Bool := false
deriving DecidableEq, Repr

/-- State of a DualViewer instance: the two viewports, the layout and
sync flags, the camera reentrancy guard _isUpdatingCamera, whether the
camera observers were installed (initialize calls _setupCameraSync only
when syncCameras is set), listener/observer bookkeeping, and logs of the
outbound notifications, of the applied fields and of the performed
camera-sync copies. -/
structure DVState where
  vpA : Viewport := {}
  vpB : Viewport := {}
  layout : String := "side-by-side"
  syncCameras : Bool := true
  syncFields : Bool := true
  enableFields : Bool := true
  cameraObserversInstalled : Bool := true
  isUpdatingCamera : Bool := false
  hasMessageCleanup : Bool := true
  messageListenerActive : Bool := true
  hasResizeObservers : Bool := true
  resizeObsAConnected : Bool := true
  resizeObsBConnected : Bool := true
  viewportsCreated : Bool := true
  errorsSent : List String := []
  meshLoadedSent : List MeshLoadedNote := []
  appliedFields : List (String × Option (Int × Int)) := []
  syncCopies : List (VId × VId × CameraPose) := []
deriving DecidableEq, Repr

/-- Read a viewport of the state. -/
def DVState.vp (s : DVState) : VId → Viewport
  | .A => s.vpA
  | .B => s.vpB

/-- Replace a viewport of the state. -/
def DVState.setVp (s : DVState) : VId → Viewport → DVState
  | .A, v => { s with vpA := v }
  | .B, v => { s with vpB := v }

/-- Write the camera pose of viewport `v`. -/
def DVState.setCamera (s : DVState) (v : VId) (p : CameraPose) : DVState :=
  s.setVp v { s.vp v with camera := p }

/-- DualViewer constructor merged with DUAL_CONFIG: the per-instance
configuration relevant to the embedded operations. -/
structure DualConfig where
  layout : String := "side-by-side"
  syncCameras : Bool := true
  syncFields : Bool := true
  enableFields : Bool := true
deriving DecidableEq, Repr

/-- DualViewer construction followed by initialize(): creates both
viewports, installs the camera observers only when syncCameras is set
(initialize lines 112-115), installs the resize handlers and the
message listener. -/
def initDualViewer (cfg : DualConfig) : DVState :=
  { vpA := {}
    vpB := {}
    layout := cfg.layout
    syncCameras := cfg.syncCameras
    syncFields := cfg.syncFields
    enableFields := cfg.enableFields
    cameraObserversInstalled := cfg.syncCameras
    isUpdatingCamera := false
    hasMessageCleanup := true
    messageListenerActive := true
    hasResizeObservers := true
    resizeObsAConnected := true
    resizeObsBConnected := true
    viewportsCreated := true
    errorsSent := []
    meshLoadedSent := []
    appliedFields := []
    syncCopies := [] }

/-- Dispatch of the camera modified event of viewport `v`.  The handler
registered by _setupCameraSync (only present when the observers were
installed) checks this.syncCameras and then runs syncCamera: if the
reentrancy guard _isUpdatingCamera is set it returns at once; otherwise
it sets the guard, copies position, focal point, view up and parallel
scale from the source camera onto the target camera - each vtk setter
synchronously fires the modified event of the target camera, hence the
recursive dispatch after each write - renders the target viewport, and
clears the guard.  Fuel bounds the event recursion depth; the guard
makes every recursive dispatch a no-op, so any fuel yields the same
result from a guard-clear state. -/
def fireModified : Nat → DVState → VId → DVState
  | 0, s, _ => s
  | n + 1, s, v =>
    if s.cameraObserversInstalled && s.syncCameras then
      if s.isUpdatingCamera then s
      else
        let src := v
        let tgt := v.other
        let s1 := { s with isUpdatingCamera := true }
        let p := (s1.vp src).camera
        let s2 := fireModified n (s1.setCamera tgt { (s1.vp tgt).camera with position := p.position }) tgt
        let s3 := fireModified n (s2.setCamera tgt { (s2.vp tgt).camera with focalPoint := p.focalPoint }) tgt
        let s4 := fireModified n (s3.setCamera tgt { (s3.vp tgt).camera with viewUp := p.viewUp }) tgt
        let s5 := fireModified n (s4.setCamera tgt { (s4.vp tgt).camera with parallelScale := p.parallelScale }) tgt
        let s6 := { s5 with syncCopies := (src, tgt, p) :: s5.syncCopies }
        { s6 with isUpdatingCamera := false }
    else s

/-- Fuel sufficient for every camera event cascade: the guard cuts the
recursion after one level. -/
def syncFuel : Nat := 2

/-- A user interaction that changes the pose of the camera of viewport
`v` to `p`: the camera is written and its modified event fires. -/
def cameraEvent (s : DVState) (v : VId) (p : CameraPose) : DVState :=
  fireModified syncFuel (s.setCamera v p) v

/-- DualViewer.setCameraSync (lines 429-432): sets the syncCameras flag. -/
def setCameraSync (s : DVState) (enabled : Bool) : DVState :=
  { s with syncCameras := enabled }

/-- DualViewer.setFieldSync (lines 438-440): sets the syncFields flag. -/
def setFieldSync (s : DVState) (enabled : Bool) : DVState :=
  { s with syncFields := enabled }

/-- DualViewer.setLayout (lines 418-423): records the layout string. -/
def setLayout (s : DVState) (l : String) : DVState :=
  { s with layout := l }

/-- Characters of the last slash-separated segment of a path. -/
def lastSegment : List Char → List Char → List Char
  | [], acc => acc
  | c :: cs, acc => if c = '/' then lastSegment cs [] else lastSegment cs (acc ++ [c])

/-- Modelled from the spec: extractFilename of MessageHandler
(../utils/MessageHandler.js, imported by DualViewer and BaseViewer) is
not part of the source snapshot; the spec reports the filename of the
loaded URL in the meshLoaded notification, so the model takes the last
path segment of the URL. -/
def extractFilename (url : String) : String :=
  String.mk (lastSegment url.toList [])

/-- Viewport selection of DualViewer.loadMesh and DualViewer.getViewport
(lines 280 and 505-507): the strict comparison with the string A picks
viewport A, anything else - including B, unknown strings and undefined,
modelled as none - picks viewport B. -/
def targetVId (viewport : Option String) : VId :=
  if viewport = some "A" then .A else .B

/-- Synchronous prefix of DualViewer.loadMesh (lines 279-293, up to the
await): selects the target viewport, removes every existing actor from
its renderer and empties its actor list, then suspends on the loader. -/
def loadMeshStart (s : DVState) (viewport : Option String) : DVState :=
  let t := targetVId viewport
  let vp := s.vp t
  s.setVp t
    { vp with
      rendererActors := vp.rendererActors.filter (fun a => !vp.actors.contains a)
      actors := [] }

/-- Completion continuation of DualViewer.loadMesh (lines 295-347), run
when the awaited load settles.  On resolution it stores the result
actors, polyData and filename into the viewport, adds the actors to the
renderer and emits the meshLoaded notification (actor configuration,
camera positioning and the render call are collaborator effects with no
controller state).  On rejection it emits the error notification and
rethrows; no controller field is written on that path.  There is no
sequence-number comparison: the continuation writes unconditionally. -/
def loadMeshComplete (s : DVState) (viewport : Option String) (url : String)
    (outcome : LoadOutcome) : DVState :=
  let t := targetVId viewport
  match outcome with
  | .ok r =>
    let vp := s.vp t
    let s1 := s.setVp t
      { vp with
        actors := r.actors
        polyData := r.polyData
        filename := some (extractFilename url)
        rendererActors := vp.rendererActors ++ r.actors }
    { s1 with
      meshLoadedSent :=
        { viewport := viewport.getD "undefined"
          filename := some (extractFilename url)
          format := r.format
          hasTexture := r.hasTexture
          hasVertexColors := r.hasVertexColors } :: s1.meshLoadedSent }
  | .err msg =>
    { s with
      errorsSent :=
        ("Failed to load mesh " ++ viewport.getD "undefined" ++ ": " ++ msg)
          :: s.errorsSent }

/-- Native range lookup of a named scalar field on a dataset. -/
def getFieldRange (d : PolyData) (fieldName : String) : Option (Int × Int) :=
  (d.fields.find? (fun f => f.1 == fieldName)).map (·.2)

/-- Modelled from the spec: FieldVisualization
(../features/FieldVisualization.js, imported by DualViewer and
BaseViewer) is not part of the source snapshot.  Per the spec, for each
dataset that has the named attribute the native [min, max] is read; the
componentwise union (overall min, overall max) is returned; with no
dataset having the attribute it fails with FieldNotFoundError; with
exactly one it returns that range unchanged. -/
def calculateSynchronizedRange (datasets : List PolyData) (fieldName : String) :
    Except String (Int × Int) :=
  match datasets.filterMap (fun d => getFieldRange d fieldName) with
  | [] => .error "FieldNotFoundError"
  | r :: rs => .ok (rs.foldl (fun acc q => (min acc.1 q.1, max acc.2 q.2)) r)

/-- DualViewer.applyField (lines 372-412): returns early when fields are
disabled; when field sync is on and no explicit range is given, collects
the present polyDatas of the two viewports and asks the coordinator for
the synchronized range; then applies the field to both mappers (a
collaborator effect, recorded in the appliedFields log) and renders. -/
def applyFieldDV (s : DVState) (fieldName : String) (optRange : Option (Int × Int)) :
    DVState :=
  if !s.enableFields then s
  else
    let range :=
      if s.syncFields && optRange.isNone then
        let polydatas := [s.vpA.polyData, s.vpB.polyData].filterMap id
        if polydatas.length > 0 then (calculateSynchronizedRange polydatas fieldName).toOption
        else none
      else optRange
    { s with appliedFields := (fieldName, range) :: s.appliedFields }

/-- An inbound cross-frame message as the dispatch observes it.  Each
field is optional: a structurally invalid message such as one with no
type field has type none.  Modelled from the spec for the adapter part:
createMessageListener of MessageHandler is not in the source snapshot;
per the spec it registers one listener and hands the message data to the
callback, tolerating arbitrary shapes. -/
structure InMsg where
  type : Option String := none
  url : Option String := none
  viewport : Option String := none
  layout : Option String := none
  enabled : Option Bool := none
  field : Option String := none
  range : Option (Int × Int) := none
deriving DecidableEq, Repr

/-- The message types the DualViewer dispatch switch recognizes. -/
def knownMessageTypes : List String :=
  ["loadMeshA", "loadMeshB", "loadMesh", "setLayout", "setCameraSync", "setField",
   "screenshot"]

/-- The dispatch switch of DualViewer._setupMessageListener (lines
240-271).  Recognized types invoke the corresponding operation (for the
load commands, the synchronous prefix of the asynchronous load); a
message whose type is absent or matches no case falls through the switch
and leaves the state untouched.  An undefined enabled flag is falsy in
the source, modelled by getD false; undefined strings interpolate to the
string undefined. -/
def handleMessage (s : DVState) (m : InMsg) : DVState :=
  match m.type with
  | none => s
  | some t =>
    if t = "loadMeshA" then loadMeshStart s (some "A")
    else if t = "loadMeshB" then loadMeshStart s (some "B")
    else if t = "loadMesh" then
      match m.viewport with
      | some v => loadMeshStart s (some v)
      | none => loadMeshStart s (some "A")
    else if t = "setLayout" then setLayout s (m.layout.getD "undefined")
    else if t = "setCameraSync" then setCameraSync s (m.enabled.getD false)
    else if t = "setField" then applyFieldDV s (m.field.getD "undefined") m.range
    else if t = "screenshot" then s
    else s

/-- DualViewer.getViewport (lines 505-507). -/
def getViewportDV (s : DVState) (id : Option String) : Viewport :=
  if id = some "A" then s.vpA else s.vpB

/-- Per-viewport part of DualViewer.destroy (lines 525-531): removes the
actors of the viewport from its renderer, unbinds the interactor events
and deletes the two vtk render windows.  The vtk object system (not in
the source snapshot; modelled from the spec, whose release policy is
best-effort and never propagated) logs and returns when a method of a
deleted instance is called, so deletion flags are simply set. -/
def destroyViewport (vp : Viewport) : Viewport :=
  { vp with
    rendererActors := vp.rendererActors.filter (fun a => !vp.actors.contains a)
    interactorBound := false
    glDeleted := true
    renderWindowDeleted := true }

/-- DualViewer.destroy (lines 512-534): runs the message-listener
cleanup when one was installed, disconnects the two resize observers
when present, and tears down each created viewport.  No instance field
is nulled by the source, so the guards still hold on a second call. -/
def destroyDV (s : DVState) : DVState :=
  let s1 := if s.hasMessageCleanup then { s with messageListenerActive := false } else s
  let s2 := if s1.hasResizeObservers then { s1 with resizeObsAConnected := false } else s1
  let s3 := if s2.hasResizeObservers then { s2 with resizeObsBConnected := false } else s2
  if s3.viewportsCreated then
    { s3 with vpA := destroyViewport s3.vpA, vpB := destroyViewport s3.vpB }
  else s3

/-- All resources owned by the dual viewer are released: listener
removed, resize observers disconnected, interactors unbound, vtk render
windows deleted on both viewports. -/
def resourcesReleased (s : DVState) : Prop :=
  s.messageListenerActive = false ∧
  s.resizeObsAConnected = false ∧ s.resizeObsBConnected = false ∧
  s.vpA.interactorBound = false ∧ s.vpA.glDeleted = true ∧
  s.vpA.renderWindowDeleted = true ∧
  s.vpB.interactorBound = false ∧ s.vpB.glDeleted = true ∧
  s.vpB.renderWindowDeleted = true

/-- Formalization of the spec sentence on load failure: afterwards
either the prior dataset remains displayed, or the viewport is fully
cleared, with actor list, polyData and filename mutually consistent -
never a mix of old and new. -/
def noPartialUpdate (prior now : Viewport) : Prop :=
  (now.actors = prior.actors ∧ now.polyData = prior.polyData ∧
    now.filename = prior.filename) ∨
  (now.actors = [] ∧ now.polyData = none ∧ now.filename = none)

instance (prior now : Viewport) : Decidable (noPartialUpdate prior now) := by
  unfold noPartialUpdate
  infer_instance

/-- A concrete camera pose distinct from the default pose. -/
def poseOne : CameraPose :=
  { position := (3, 4, 5), focalPoint := (1, 1, 1), viewUp := (0, 0, 1), parallelScale := 2 }

/-- A concrete load result standing for the first issued load. -/
def resOne : LoadResult :=
  { actors := [1], polyData := some { id := 1, fields := [] }, format := "obj",
    hasTexture := false, hasVertexColors := false }

/-- A concrete load result standing for the second issued load. -/
def resTwo : LoadResult :=
  { actors := [2], polyData := some { id := 2, fields := [] }, format := "obj",
    hasTexture := false, hasVertexColors := false }

/-- A concrete load result holding a dataset with one scalar field. -/
def resOld : LoadResult :=
  { actors := [11], polyData := some { id := 7, fields := [("temp", (0, 10))] },
    format := "obj", hasTexture := false, hasVertexColors := false }

/-- Schedule of the out-of-order completion race on viewport A: two
loads are issued (each running its synchronous prefix), the later
issued one completes first, the earlier issued one completes last. -/
def raceFinal : DVState :=
  loadMeshComplete
    (loadMeshComplete
      (loadMeshStart (loadMeshStart (initDualViewer {}) (some "A")) (some "A"))
      (some "A") "mesh2.obj" (.ok resTwo))
    (some "A") "mesh1.obj" (.ok resOne)

/-- State of the viewer after a successful load of old.obj into
viewport A. -/
def failedLoadPrior : DVState :=
  loadMeshComplete (loadMeshStart (initDualViewer {}) (some "A"))
    (some "A") "old.obj" (.ok resOld)

/-- State after a subsequent load into viewport A fails. -/
def failedLoadFinal : DVState :=
  loadMeshComplete (loadMeshStart failedLoadPrior (some "A"))
    (some "A") "new.obj" (.err "network error")

/-- A concrete dataset whose field t has range [0, 10]. -/
def dsOne : PolyData := { id := 1, fields := [("t", (0, 10))] }

/-- A concrete dataset whose field t has range [5, 20]. -/
def dsTwo : PolyData := { id := 2, fields := [("t", (5, 20))] }

/-! ## Helper lemmas -/

/-- A camera modified dispatch from a state whose reentrancy guard is
set is a no-op, for any fuel. -/
theorem fireModified_guarded (n : Nat) (s : DVState) (v : VId)
    (h : s.isUpdatingCamera = true) : fireModified n s v = s := by
  cases n with
  | zero => rfl
  | succ n => simp [fireModified, h]

/-- Filtering twice with the same predicate equals filtering once. -/
theorem filter_self_idem (p : Nat → Bool) (l : List Nat) :
    (l.filter p).filter p = l.filter p := by
  induction l with
  | nil => rfl
  | cons a t ih => cases h : p a <;> simp [List.filter_cons, h, ih]

/-- With camera sync disabled, a pose change event only writes the pose
of the source camera. -/
theorem cameraEvent_no_sync (s : DVState) (p : CameraPose)
    (h : s.syncCameras = false) :
    cameraEvent s .A p = { s with vpA := { s.vpA with camera := p } } := by
  simp [cameraEvent, syncFuel, fireModified, DVState.setCamera, DVState.setVp, DVState.vp, h]

/-- Folding pose change events on viewport A over a state with camera
sync disabled never touches viewport B. -/
theorem foldl_cameraEventA_no_sync (ps : List CameraPose) :
    ∀ s : DVState, s.syncCameras = false →
      (ps.foldl (fun st q => cameraEvent st .A q) s).vpB = s.vpB := by
  induction ps with
  | nil => intro s _; rfl
  | cons q qs ih =>
    intro s h
    rw [List.foldl_cons, cameraEvent_no_sync s q h]
    exact ih _ h

/-! ## Claims -/

/-- C2: with camera sync enabled on both viewports (observers installed
at initialize and the flag on), a single pose change on the camera of
viewport A performs exactly one pose copy onto the camera of viewport B
and no further triggered change back on A: the camera of A holds
exactly the user-written pose, the sync-copy log gains exactly the one
entry from A to B, and the reentrancy guard is clear again - the
propagation does not cycle. -/
theorem camera_sync_single_propagation (s : DVState) (p : CameraPose)
    (hg : s.isUpdatingCamera = false) (ho : s.cameraObserversInstalled = true)
    (hs : s.syncCameras = true) :
    (cameraEvent s .A p).vpA.camera = p ∧
    (cameraEvent s .A p).vpB.camera = p ∧
    (cameraEvent s .A p).syncCopies = (VId.A, VId.B, p) :: s.syncCopies ∧
    (cameraEvent s .A p).isUpdatingCamera = false := by
  simp [cameraEvent, syncFuel, fireModified, VId.other, DVState.setCamera, DVState.setVp,
    DVState.vp, hg, ho, hs]

/-- Witness for C2 at the freshly initialized viewer and a concrete
pose. -/
theorem camera_sync_single_propagation_witness :
    (cameraEvent (initDualViewer {}) .A poseOne).vpA.camera = poseOne ∧
    (cameraEvent (initDualViewer {}) .A poseOne).vpB.camera = poseOne ∧
    (cameraEvent (initDualViewer {}) .A poseOne).syncCopies =
      (VId.A, VId.B, poseOne) :: (initDualViewer {}).syncCopies ∧
    (cameraEvent (initDualViewer {}) .A poseOne).isUpdatingCamera = false :=
  camera_sync_single_propagation (initDualViewer {}) poseOne rfl rfl rfl

/-- C7: after setCameraSync false, propagation stops immediately: every
subsequent sequence of pose changes on the camera of viewport A leaves
viewport B (its camera pose included) unchanged. -/
theorem camera_sync_off_stops_propagation (s : DVState) (ps : List CameraPose) :
    (ps.foldl (fun st q => cameraEvent st .A q) (setCameraSync s false)).vpB = s.vpB :=
  foldl_cameraEventA_no_sync ps (setCameraSync s false) rfl

/-- C8 counterexample: a viewer constructed and initialized with
syncCameras false never installs the camera observers, so after
setCameraSync true a pose change on viewport A leaves the camera of
viewport B untouched instead of copying the pose onto it. -/
theorem camera_sync_enable_without_observers_counterexample :
    (cameraEvent (setCameraSync (initDualViewer { syncCameras := false }) true)
        .A poseOne).vpB.camera = defaultPose ∧
    defaultPose ≠ poseOne := by decide

/-- C8 amended: for a viewer whose camera observers were installed at
initialize (it was constructed with syncCameras true), after
setCameraSync true the next pose change on the camera of viewport A
makes the camera pose of viewport B equal to it within the same
synchronous step. -/
theorem camera_sync_enable_with_observers (s : DVState) (p : CameraPose)
    (ho : s.cameraObserversInstalled = true) (hg : s.isUpdatingCamera = false) :
    (cameraEvent (setCameraSync s true) .A p).vpB.camera = p := by
  simp [cameraEvent, syncFuel, fireModified, VId.other, setCameraSync, DVState.setCamera,
    DVState.setVp, DVState.vp, ho, hg]

/-- Witness for the amended C8 at the freshly initialized viewer. -/
theorem camera_sync_enable_with_observers_witness :
    (cameraEvent (setCameraSync (initDualViewer {}) true) .A poseOne).vpB.camera =
      poseOne :=
  camera_sync_enable_with_observers (initDualViewer {}) poseOne rfl rfl

/-- C9 counterexample: with camera sync enabled and neither viewport
holding a dataset, a pose change on the camera of viewport A still
changes the camera pose of viewport B - synchronization is not a no-op
while state is unloaded. -/
theorem camera_sync_ignores_missing_datasets_counterexample :
    (initDualViewer {}).vpA.polyData = none ∧
    (initDualViewer {}).vpB.polyData = none ∧
    (initDualViewer {}).vpB.camera = defaultPose ∧
    (cameraEvent (initDualViewer {}) .A poseOne).vpB.camera = poseOne ∧
    poseOne ≠ defaultPose := by decide

/-- C9 amended: the sync handler copies the pose unconditionally - even
when neither viewport has a dataset loaded, a pose change on the camera
of viewport A is propagated onto the camera of viewport B (the cameras
exist from viewport creation, so there is no undefined camera state). -/
theorem camera_sync_regardless_of_datasets (s : DVState) (p : CameraPose)
    (hg : s.isUpdatingCamera = false) (ho : s.cameraObserversInstalled = true)
    (hs : s.syncCameras = true) (ha : s.vpA.polyData = none)
    (hb : s.vpB.polyData = none) :
    (cameraEvent s .A p).vpB.camera = p := by
  simp [cameraEvent, syncFuel, fireModified, VId.other, DVState.setCamera, DVState.setVp,
    DVState.vp, hg, ho, hs]

/-- Witness for the amended C9 at the freshly initialized (empty)
viewer. -/
theorem camera_sync_regardless_of_datasets_witness :
    (cameraEvent (initDualViewer {}) .A poseOne).vpB.camera = poseOne :=
  camera_sync_regardless_of_datasets (initDualViewer {}) poseOne rfl rfl rfl rfl rfl

/-- C1 counterexample: in the race schedule two loads are issued to
viewport A, mesh1.obj first and mesh2.obj second; the later issued load
completes first and the earlier issued one completes last.  The final
viewport state reflects mesh1.obj - the earlier issued load - and not
the most recently issued mesh2.obj: there is no sequence-number check,
so the stale completion overwrites the newer state. -/
theorem loadMesh_issue_order_counterexample :
    raceFinal.vpA.filename = some "mesh1.obj" ∧
    raceFinal.vpA.filename ≠ some "mesh2.obj" ∧
    raceFinal.vpA.actors = resOne.actors ∧
    raceFinal.vpA.polyData = resOne.polyData ∧
    resOne ≠ resTwo := by decide

/-- C1 amended: viewport state follows completion order, not issue
order: whichever load completion is processed last determines the
actors, polyData and filename of the viewport, unconditionally - an
earlier issued load that resolves after a later one does overwrite the
newer state. -/
theorem loadMesh_completion_order_wins (s : DVState) (u1 u2 : String)
    (r1 r2 : LoadResult) :
    (loadMeshComplete (loadMeshComplete s (some "A") u2 (.ok r2))
        (some "A") u1 (.ok r1)).vpA.actors = r1.actors ∧
    (loadMeshComplete (loadMeshComplete s (some "A") u2 (.ok r2))
        (some "A") u1 (.ok r1)).vpA.polyData = r1.polyData ∧
    (loadMeshComplete (loadMeshComplete s (some "A") u2 (.ok r2))
        (some "A") u1 (.ok r1)).vpA.filename = some (extractFilename u1) := by
  simp [loadMeshComplete, targetVId, DVState.vp, DVState.setVp]

/-- C4 counterexample: after a successful load of old.obj into viewport
A, a failing load leaves the viewport with an empty actor list but with
the polyData and filename of the old dataset still in place: the prior
dataset is no longer displayed and the viewport is not fully cleared,
so the mutual-consistency property of the claim fails. -/
theorem load_failure_partial_state_counterexample :
    failedLoadFinal.vpA.actors = [] ∧
    failedLoadFinal.vpA.polyData = resOld.polyData ∧
    failedLoadFinal.vpA.filename = some "old.obj" ∧
    ¬ noPartialUpdate failedLoadPrior.vpA failedLoadFinal.vpA := by decide

/-- C4 amended: when a load into a viewport fails, the synchronous
prefix has already detached the old actors and emptied the actor list,
and the failure path writes nothing further, so afterwards the actor
list is empty (no mix of old and new actors is ever attached) while
polyData and filename retain their prior values; exactly one error
notification is emitted and the rest of the controller state is intact,
so the failure is not fatal to the controller. -/
theorem load_failure_clears_actors_keeps_metadata (s : DVState)
    (vpid : Option String) (u : String) (msg : String) :
    ((loadMeshComplete (loadMeshStart s vpid) vpid u (.err msg)).vp
        (targetVId vpid)).actors = [] ∧
    ((loadMeshComplete (loadMeshStart s vpid) vpid u (.err msg)).vp
        (targetVId vpid)).polyData = (s.vp (targetVId vpid)).polyData ∧
    ((loadMeshComplete (loadMeshStart s vpid) vpid u (.err msg)).vp
        (targetVId vpid)).filename = (s.vp (targetVId vpid)).filename ∧
    (loadMeshComplete (loadMeshStart s vpid) vpid u (.err msg)).errorsSent =
      ("Failed to load mesh " ++ vpid.getD "undefined" ++ ": " ++ msg)
        :: s.errorsSent ∧
    (loadMeshComplete (loadMeshStart s vpid) vpid u (.err msg)).vp
        ((targetVId vpid).other) = s.vp ((targetVId vpid).other) := by
  cases h : targetVId vpid <;>
    simp [loadMeshComplete, loadMeshStart, h, VId.other, DVState.vp, DVState.setVp]

/-- C5: DualViewer.destroy is idempotent - a second call goes through
the same guards, rewrites the same released values and completes
without effect - and on a fully initialized viewer one destroy releases
every owned resource: listener, resize observers, interactors and vtk
render windows. -/
theorem destroy_twice_safe (s : DVState)
    (h1 : s.hasMessageCleanup = true) (h2 : s.hasResizeObservers = true)
    (h3 : s.viewportsCreated = true) :
    destroyDV (destroyDV s) = destroyDV s ∧ resourcesReleased (destroyDV s) := by
  constructor
  · simp [destroyDV, h1, h2, h3, destroyViewport, filter_self_idem]
  · simp [destroyDV, h1, h2, h3, destroyViewport, resourcesReleased]

/-- Witness for C5 at the freshly initialized viewer. -/
theorem destroy_twice_safe_witness :
    destroyDV (destroyDV (initDualViewer {})) = destroyDV (initDualViewer {}) ∧
    resourcesReleased (destroyDV (initDualViewer {})) :=
  destroy_twice_safe (initDualViewer {}) rfl rfl rfl

/-- C6: an inbound message whose type field is absent or matches none
of the recognized message types falls through the dispatch switch and
produces the identical controller state: no state change, no error
notification (the errorsSent log is part of the state equality), and no
raise (the dispatch is total). -/
theorem unknown_message_no_effect (s : DVState) (m : InMsg)
    (h : ∀ t, m.type = some t → t ∉ knownMessageTypes) :
    handleMessage s m = s := by
  cases hm : m.type with
  | none => simp [handleMessage, hm]
  | some t =>
    have ht := h t hm
    simp only [knownMessageTypes, List.mem_cons, List.not_mem_nil, or_false, not_or] at ht
    obtain ⟨h1, h2, h3, h4, h5, h6, h7⟩ := ht
    simp [handleMessage, hm, h1, h2, h3, h4, h5, h6, h7]

/-- Witness for C6: the message with a foreign payload and no type
field leaves the initialized viewer state unchanged. -/
theorem unknown_message_no_effect_witness :
    handleMessage (initDualViewer {}) { type := some "bogus" } = initDualViewer {} :=
  unknown_message_no_effect (initDualViewer {}) { type := some "bogus" }
    (fun t ht => by cases ht; decide)

/-- C10: every viewport identifier other than the string A - including
B, unknown strings and an absent identifier - addresses viewport B: the
selection of loadMesh and getViewport resolves to viewport B, viewport
A is untouched by the load prefix, and no error is emitted. -/
theorem non_A_viewport_targets_B (s : DVState) (id : Option String)
    (h : id ≠ some "A") :
    targetVId id = VId.B ∧
    getViewportDV s id = s.vpB ∧
    (loadMeshStart s id).vpA = s.vpA ∧
    (loadMeshStart s id).errorsSent = s.errorsSent := by
  have hB : targetVId id = VId.B := by simp [targetVId, h]
  refine ⟨hB, ?_, ?_, ?_⟩ <;>
    simp [getViewportDV, h, loadMeshStart, hB, DVState.vp, DVState.setVp]

/-- Witness for C10 at an unknown viewport identifier. -/
theorem non_A_viewport_targets_B_witness :
    targetVId (some "Z") = VId.B ∧
    getViewportDV (initDualViewer {}) (some "Z") = (initDualViewer {}).vpB ∧
    (loadMeshStart (initDualViewer {}) (some "Z")).vpA = (initDualViewer {}).vpA ∧
    (loadMeshStart (initDualViewer {}) (some "Z")).errorsSent =
      (initDualViewer {}).errorsSent :=
  non_A_viewport_targets_B (initDualViewer {}) (some "Z") (by decide)

/-- C3: the synchronized range computation is commutative in the order
of its two-dataset list; for two datasets whose named attribute has
ranges [a0, a1] and [b0, b1] it returns the componentwise union
[min a0 b0, max a1 b1]; and for exactly one dataset having the
attribute it returns that range unchanged. -/
theorem calculateSynchronizedRange_spec :
    (∀ (d1 d2 : PolyData) (f : String),
        calculateSynchronizedRange [d1, d2] f = calculateSynchronizedRange [d2, d1] f) ∧
    (∀ (d1 d2 : PolyData) (f : String) (a0 a1 b0 b1 : Int),
        getFieldRange d1 f = some (a0, a1) → getFieldRange d2 f = some (b0, b1) →
        calculateSynchronizedRange [d1, d2] f = .ok (min a0 b0, max a1 b1)) ∧
    (∀ (d : PolyData) (f : String) (a0 a1 : Int),
        getFieldRange d f = some (a0, a1) →
        calculateSynchronizedRange [d] f = .ok (a0, a1)) := by
  refine ⟨?_, ?_, ?_⟩
  · intro d1 d2 f
    cases h1 : getFieldRange d1 f <;> cases h2 : getFieldRange d2 f <;>
      simp [calculateSynchronizedRange, List.filterMap_cons, List.filterMap_nil, h1, h2,
        Prod.ext_iff, min_comm, max_comm]
  · intro d1 d2 f a0 a1 b0 b1 h1 h2
    simp [calculateSynchronizedRange, List.filterMap_cons, List.filterMap_nil, h1, h2]
  · intro d f a0 a1 h
    simp [calculateSynchronizedRange, List.filterMap_cons, List.filterMap_nil, h]

/-- Witness for C3: ranges [0, 10] and [5, 20] give the union [0, 20],
in either list order, and a single dataset keeps its own range. -/
theorem calculateSynchronizedRange_spec_witness :
    calculateSynchronizedRange [dsOne, dsTwo] "t" =
      calculateSynchronizedRange [dsTwo, dsOne] "t" ∧
    calculateSynchronizedRange [dsOne, dsTwo] "t" = .ok (min 0 5, max 10 20) ∧
    calculateSynchronizedRange [dsOne] "t" = .ok (0, 10) :=
  ⟨calculateSynchronizedRange_spec.1 dsOne dsTwo "t",
   calculateSynchronizedRange_spec.2.1 dsOne dsTwo "t" 0 10 5 20 (by decide) (by decide),
   calculateSynchronizedRange_spec.2.2 dsOne "t" 0 10 (by decide)⟩

end GeometryPack
